import Mathlib

/-
Shallow embedding of the container runtime in src/w2d2/w2d2_commit_solution.py.

Data model:
* A volume (btrfs subvolume) is identified by its path component (a string) and
  carries a content, modelled as an association list from file path to file bytes.
* The storage state `St` is the list of volumes under the btrfs root, newest first
  (matching the fact that on the real filesystem a path names at most one subvolume,
  all state-changing operations below keep keys unique for any state they produce,
  and lookups take the first matching entry).
* Strings are modelled as `List Char` (`Str`) so that the substring check of
  `_docker_check` (Python's `in` operator over the `btrfs subvolume list` output)
  is an executable function with decidable results.

The shell scripts run with `set -o errexit`, so a failing storage command aborts
the script at that point; the Lean functions below reproduce this by returning
the state reached so far together with a nonzero exit code.
-/

/-- Strings as lists of characters. -/
abbrev Str := List Char

/-- Coerce a Lean string literal into the `Str` model. -/
def sl (x : String) : Str := x.data

/-- The content of a volume or of a host directory: file path ↦ file bytes. -/
abbrev VolContent := List (Str × Str)

/-- The storage state: the volumes under the btrfs root, as id ↦ content. -/
abbrev St := List (Str × VolContent)

/-- First-match association lookup (a filesystem path names at most one object). -/
def alookup {β : Type} : List (Str × β) → Str → Option β
  | [], _ => none
  | (k, v) :: rest, key => if k = key then some v else alookup rest key

/-- Overwrite (or create) the file at path `p` with bytes `v`, as `echo ... > p` does. -/
def setFile (c : VolContent) (p v : Str) : VolContent :=
  (p, v) :: c.filter (fun e => decide (e.1 ≠ p))

/-- Whether a volume with exactly this id exists (what the btrfs commands act on). -/
def volExists (st : St) (id : Str) : Bool := (alookup st id).isSome

/-- Target of `btrfs subvolume create` or `snapshot`: a new volume appears under `id`. -/
def addVol (st : St) (id : Str) (c : VolContent) : St := (id, c) :: st

/-- Effect of `btrfs subvolume delete`: the volume at exactly `id` disappears. -/
def deleteVol (st : St) (id : Str) : St := st.filter (fun e => decide (e.1 ≠ id))

/-- The output of `btrfs subvolume list`: one line per volume, each line carrying the
volume's path component; abstracted to the ids joined by newlines. -/
def subvolumeList : St → Str
  | [] => []
  | [(id, _)] => id
  | (id, _) :: e :: rest => id ++ '\n' :: subvolumeList (e :: rest)

/-- Python's substring operator `needle in hay`. -/
def containsSub (hay needle : Str) : Bool :=
  match hay with
  | [] => needle.isEmpty
  | _ :: rest => needle.isPrefixOf hay || containsSub rest needle

/-- The function `_docker_check(container_id)` evaluates `container_id in result.stdout` — a substring test
against the volume-listing output, not an exact-name test. -/
def docker_check (st : St) (id : Str) : Bool := containsSub (subvolumeList st) id

/-- Decimal digits of a number, for the id suffix. -/
def natToStr (n : Nat) : Str := Nat.toDigits 10 n

/-- The function `_generate_uuid(prefix)` appends a random integer drawn from
42002..42254 inclusive to the prefix. The entropy
input `r : Nat` is reduced to the inclusive draw space 42002..42254 (253 values). -/
def generate_uuid (pre : Str) (r : Nat) : Str := pre ++ natToStr (42002 + r % 253)

/-- The image id namespace, as in `_generate_uuid("img_")`. -/
def imgPre : Str := sl "img_"

/-- The container id namespace, as in `_generate_uuid("ps_")`. -/
def psPre : Str := sl "ps_"

/-- The provenance marker file written by `init`. -/
def imgSourceName : Str := sl "img.source"

/-- The id allocator: draw a candidate, redraw while `_docker_check` reports a
collision (the source recurses into the calling command for the redraw; the entropy
list doubles as fuel for that recursion). -/
def issueId (st : St) (pre : Str) : List Nat → Option Str
  | [] => none
  | r :: rs =>
    if docker_check st (generate_uuid pre r) then issueId st pre rs
    else some (generate_uuid pre r)

/-- A line break, as written by `echo content > file` after its argument. -/
def pyNL : Str := ['\n']

/-- The whitespace characters removed by Python's `str.strip()`. -/
def pyIsSpace (c : Char) : Bool :=
  c = ' ' || c = '\t' || c = '\n' || c = '\r' || c = '\x0b' || c = '\x0c'

/-- Python's `str.strip()`. -/
def pyStrip (x : Str) : Str :=
  ((x.dropWhile pyIsSpace).reverse.dropWhile pyIsSpace).reverse

/-- Python's `' '.join(args)`. -/
def joinArgs : List Str → Str
  | [] => []
  | [x] => x
  | x :: rest => x ++ ' ' :: joinArgs rest

/-- Whether a path names a top-level dot-entry: the shell glob `dir/*` (no
`dotglob`) does not match a directory entry whose name begins with a dot, so
such an entry — and everything below it — is invisible to the `cp`. Deeper
hidden files (a dot only after a `/`) sit inside a matched entry and are copied
by `cp -r`. -/
def hiddenFromGlob (p : Str) : Bool :=
  match p with
  | '.' :: _ => true
  | _ => false

/-- The part of a directory's contents that the unquoted glob `dir/*` exposes to
`cp`: every file whose top-level component is not a dot-entry. -/
def visibleEntries (c : VolContent) : VolContent :=
  c.filter (fun e => !hiddenFromGlob e.1)

/-- The command `init(args)`: create an image from a directory. `dirs` models the host
filesystem's directories (name ↦ content), `rands` the entropy consumed by the
id allocator. The volume is created before the `cp` of the directory's entries;
the glob `"dir"/*` skips top-level dot-entries, so only `visibleEntries` are
copied, and when the glob matches nothing (directory empty or all entries
hidden) the literal pattern makes `cp` fail under `errexit` after the volume was
already created — the empty volume is left behind and a nonzero code returned.
The provenance marker `img.source` is only written when the copied contents did
not already provide one. Returns the new state, the created image id (`None` on
failure) and the exit code. -/
def init (dirs : List (Str × VolContent)) (st : St) (rands : List Nat)
    (args : List Str) : St × Option Str × Nat :=
  match args with
  | [] => (st, none, 1)
  | directory :: _ =>
    match alookup dirs directory with
    | none => (st, none, 1)
    | some dcontent =>
      match issueId st imgPre rands with
      | none => (st, none, 1)
      | some uuid =>
        if (visibleEntries dcontent).isEmpty then (addVol st uuid [], none, 1)
        else
          let copied := visibleEntries dcontent
          let c1 := if (alookup copied imgSourceName).isSome then copied
                    else setFile copied imgSourceName (directory ++ pyNL)
          (addVol st uuid c1, some uuid, 0)

/-- The command `rm(args)`: delete an image or container. After the substring existence check
passes, `btrfs subvolume delete` still fails (nonzero, no mutation) unless a
volume exactly named `id` exists. -/
def rm (st : St) (args : List Str) : St × Nat :=
  match args with
  | [] => (st, 1)
  | id :: _ =>
    if docker_check st id = false then (st, 1)
    else if volExists st id = false then (st, 1)
    else (deleteVol st id, 0)

/-- The helper `_list_images()`: the volumes whose id carries the image namespace and which
contain a provenance marker, paired with the stripped marker content. -/
def list_images (st : St) : List (Str × Str) :=
  st.filterMap (fun e =>
    if imgPre.isPrefixOf e.1 then
      match alookup e.2 imgSourceName with
      | some src => some (e.1, pyStrip src)
      | none => none
    else none)

/-- The helper `_list_containers()`: the volumes whose id carries the container namespace and
which contain their command-record file, paired with the stripped command. -/
def list_containers (st : St) : List (Str × Str) :=
  st.filterMap (fun e =>
    if psPre.isPrefixOf e.1 then
      match alookup e.2 (e.1 ++ sl ".cmd") with
      | some cmd => some (e.1, pyStrip cmd)
      | none => none
    else none)

/-- The outcome of the isolated process: the volume content it leaves behind, its
combined output (captured by `tee` into the log) and its exit status. -/
structure ExecResult where
  content : VolContent
  output : Str
  exitCode : Nat

/-- The command `run(args)`: create a container from an image and execute a command inside it.
`exec` models the isolated process (`unshare … chroot … /bin/sh -c …`): it may
rewrite the volume content arbitrarily and yields the combined output and exit
status; `resolv` is the host's DNS configuration copied into the container. The
trailing `|| true` of the pipeline discards the process's exit status, so the
script — and hence `run` — exits 0 once the storage steps have succeeded. -/
def run (exec : VolContent → Str → ExecResult) (resolv : Str) (st : St)
    (rands : List Nat) (args : List Str) : St × Nat :=
  match args with
  | image_id :: c0 :: crest =>
    let command := joinArgs (c0 :: crest)
    if docker_check st image_id = false then (st, 1)
    else if pyStrip command = [] then (st, 1)
    else
      match issueId st psPre rands with
      | none => (st, 1)
      | some uuid =>
        match alookup st image_id with
        | none => (st, 1)
        | some icontent =>
          let c1 := setFile icontent (uuid ++ sl ".cmd") (command ++ pyNL)
          let c2 := setFile c1 (sl "etc/resolv.conf") resolv
          let r := exec c2 command
          let c3 := setFile r.content (uuid ++ sl ".log") r.output
          (addVol st uuid c3, 0)
  | _ => (st, 1)

/-- The command `commit(args)`: overwrite an existing image with a snapshot of a container.
After both substring checks pass, the script deletes the volume at exactly
`image_id` (failing, with no mutation, if none exists) and then snapshots the
volume at exactly `container_id` into `image_id` (failing, after the delete
already happened, if none exists). -/
def commit (st : St) (args : List Str) : St × Nat :=
  match args with
  | container_id :: image_id :: _ =>
    if docker_check st container_id = false then (st, 1)
    else if docker_check st image_id = false then (st, 1)
    else if volExists st image_id = false then (st, 1)
    else
      let st1 := deleteVol st image_id
      match alookup st1 container_id with
      | none => (st1, 1)
      | some c => (addVol st1 image_id c, 0)
  | _ => (st, 1)

/-! Helper lemmas about the storage model. -/

theorem isPrefixOf_append_self : ∀ (p t : Str), p.isPrefixOf (p ++ t) = true
  | [], t => by cases t <;> rfl
  | c :: p', t => by
    simp only [List.cons_append, List.isPrefixOf, Bool.and_eq_true, beq_self_eq_true,
      true_and]
    exact isPrefixOf_append_self p' t

theorem containsSub_of_isPrefixOf (hay needle : Str)
    (h : needle.isPrefixOf hay = true) : containsSub hay needle = true := by
  cases hay with
  | nil =>
    cases needle with
    | nil => rfl
    | cons c cs => simp [List.isPrefixOf] at h
  | cons x rest => simp [containsSub, h]

theorem containsSub_cons (x : Char) (hay needle : Str)
    (h : containsSub hay needle = true) : containsSub (x :: hay) needle = true := by
  simp [containsSub, h]

theorem containsSub_append_left (h t n : Str)
    (hc : containsSub t n = true) : containsSub (h ++ t) n = true := by
  induction h with
  | nil => exact hc
  | cons x h' ih => exact containsSub_cons x (h' ++ t) n ih

theorem isPrefixOf_self (p : Str) : p.isPrefixOf p = true := by
  have h := isPrefixOf_append_self p []
  rw [List.append_nil] at h
  exact h

theorem mem_containsSub : ∀ (st : St) (a : Str) (c : VolContent),
    (a, c) ∈ st → containsSub (subvolumeList st) a = true
  | [], _, _, h => absurd h (List.not_mem_nil _)
  | [(k, v)], a, c, h => by
    rcases List.mem_cons.mp h with heq | hmem
    · have hak : a = k := congrArg Prod.fst heq
      subst hak
      exact containsSub_of_isPrefixOf _ _ (isPrefixOf_self a)
    · cases hmem
  | (k, v) :: e :: rest, a, c, h => by
    rcases List.mem_cons.mp h with heq | hmem
    · have hak : a = k := congrArg Prod.fst heq
      subst hak
      show containsSub (a ++ '\n' :: subvolumeList (e :: rest)) a = true
      exact containsSub_of_isPrefixOf _ _ (isPrefixOf_append_self a _)
    · have hrest := mem_containsSub (e :: rest) a c hmem
      show containsSub (k ++ '\n' :: subvolumeList (e :: rest)) a = true
      exact containsSub_append_left k _ a (containsSub_cons '\n' _ a hrest)

theorem docker_check_of_mem (st : St) (a : Str) (c : VolContent)
    (h : (a, c) ∈ st) : docker_check st a = true :=
  mem_containsSub st a c h

theorem alookup_some_mem {β : Type} (l : List (Str × β)) (key : Str) (v : β)
    (h : alookup l key = some v) : (key, v) ∈ l := by
  induction l with
  | nil => simp [alookup] at h
  | cons e rest ih =>
    obtain ⟨k, w⟩ := e
    by_cases hk : k = key
    · subst hk
      simp [alookup] at h
      subst h
      exact List.mem_cons_self _ _
    · simp [alookup, hk] at h
      exact List.mem_cons_of_mem _ (ih h)

theorem docker_check_of_alookup (st : St) (a : Str) (c : VolContent)
    (h : alookup st a = some c) : docker_check st a = true :=
  docker_check_of_mem st a c (alookup_some_mem st a c h)

theorem alookup_none_of_check_false (st : St) (a : Str)
    (h : docker_check st a = false) : alookup st a = none := by
  cases hl : alookup st a with
  | none => rfl
  | some c => rw [docker_check_of_alookup st a c hl] at h; cases h

theorem alookup_filter_ne {β : Type} (l : List (Str × β)) (x y : Str) (hne : y ≠ x) :
    alookup (l.filter (fun e => decide (e.1 ≠ x))) y = alookup l y := by
  have hxy : ¬ (x = y) := fun h => hne h.symm
  induction l with
  | nil => rfl
  | cons e rest ih =>
    obtain ⟨k, v⟩ := e
    simp only [ne_eq, decide_not] at ih ⊢
    by_cases hk : k = x
    · subst hk
      simp [List.filter_cons, alookup, hxy, ih]
    · by_cases hky : k = y
      · subst hky
        simp [List.filter_cons, hk, alookup]
      · simp [List.filter_cons, hk, hky, alookup, ih]

theorem alookup_deleteVol_ne (st : St) (x y : Str) (hne : y ≠ x) :
    alookup (deleteVol st x) y = alookup st y :=
  alookup_filter_ne st x y hne

theorem alookup_deleteVol_self (st : St) (x : Str) :
    alookup (deleteVol st x) x = none := by
  induction st with
  | nil => rfl
  | cons e rest ih =>
    obtain ⟨k, v⟩ := e
    by_cases hk : k = x
    · subst hk
      simpa [deleteVol, List.filter_cons] using ih
    · simpa [deleteVol, List.filter_cons, hk, alookup] using ih

theorem alookup_addVol_self (st : St) (a : Str) (c : VolContent) :
    alookup (addVol st a c) a = some c := by
  simp [addVol, alookup]

theorem alookup_addVol_ne (st : St) (a y : Str) (c : VolContent) (hne : y ≠ a) :
    alookup (addVol st a c) y = alookup st y := by
  have hay : ¬ (a = y) := fun h => hne h.symm
  simp [addVol, alookup, hay]

/-- Any execution of `commit` that exits 0 passed both substring checks, found an
exact volume at the image id (so the delete succeeded) and an exact volume at the
container id after the delete (so the snapshot succeeded). -/
theorem commit_success (st : St) (cid iid : Str) (rest : List Str)
    (h : (commit st (cid :: iid :: rest)).2 = 0) :
    ∃ c, docker_check st cid = true ∧ docker_check st iid = true
      ∧ volExists st iid = true
      ∧ alookup (deleteVol st iid) cid = some c
      ∧ commit st (cid :: iid :: rest) = (addVol (deleteVol st iid) iid c, 0) := by
  cases h1 : docker_check st cid with
  | false => simp [commit, h1] at h
  | true =>
    cases h2 : docker_check st iid with
    | false => simp [commit, h1, h2] at h
    | true =>
      cases h3 : volExists st iid with
      | false => simp [commit, h1, h2, h3] at h
      | true =>
        cases h4 : alookup (deleteVol st iid) cid with
        | none => simp [commit, h1, h2, h3, h4] at h
        | some c =>
          refine ⟨c, rfl, rfl, rfl, rfl, ?_⟩
          simp [commit, h1, h2, h3, h4]

/-- Shared example state: one container volume and one image volume. -/
def exContent : VolContent := [(sl "a", sl "1")]

/-- Shared example state: content of the example image volume. -/
def exImgContent : VolContent := [(imgSourceName, sl "/base\n")]

/-- Shared example state: a container `ps_42002` and an image `img_42002`. -/
def exSt : St := [(sl "ps_42002", exContent), (sl "img_42002", exImgContent)]

/-- C1: for every existing container and existing image, a successful
`commit(container, image)` leaves the image's volume with content bit-identical to
the container's volume content at commit time, and the container's volume is
unchanged by the operation and still present afterward. -/
theorem commit_success_preserves_container (st : St) (cid iid : Str)
    (_hC : volExists st cid = true) (_hI : volExists st iid = true)
    (h : (commit st [cid, iid]).2 = 0) :
    alookup (commit st [cid, iid]).1 iid = alookup st cid
    ∧ alookup (commit st [cid, iid]).1 cid = alookup st cid
    ∧ volExists (commit st [cid, iid]).1 cid = true := by
  obtain ⟨c, h1, h2, h3, h4, heq⟩ := commit_success st cid iid [] h
  have hne : cid ≠ iid := by
    intro he; subst he
    rw [alookup_deleteVol_self] at h4; cases h4
  have hcs : alookup st cid = some c := by
    rw [← alookup_deleteVol_ne st iid cid hne]; exact h4
  rw [heq]; dsimp only
  refine ⟨?_, ?_, ?_⟩
  · rw [alookup_addVol_self, hcs]
  · rw [alookup_addVol_ne _ _ _ _ hne, alookup_deleteVol_ne st iid cid hne]
  · rw [volExists, alookup_addVol_ne _ _ _ _ hne, alookup_deleteVol_ne st iid cid hne, hcs]
    rfl

/-- Witness for C1 at a concrete state. -/
theorem commit_success_preserves_container_witness :
    volExists exSt (sl "ps_42002") = true
    ∧ volExists exSt (sl "img_42002") = true
    ∧ (commit exSt [sl "ps_42002", sl "img_42002"]).2 = 0
    ∧ (alookup (commit exSt [sl "ps_42002", sl "img_42002"]).1 (sl "img_42002")
         = alookup exSt (sl "ps_42002")
       ∧ alookup (commit exSt [sl "ps_42002", sl "img_42002"]).1 (sl "ps_42002")
         = alookup exSt (sl "ps_42002")
       ∧ volExists (commit exSt [sl "ps_42002", sl "img_42002"]).1 (sl "ps_42002") = true) :=
  ⟨by decide, by decide, by decide,
    commit_success_preserves_container exSt (sl "ps_42002") (sl "img_42002")
      (by decide) (by decide) (by decide)⟩

/-- C3: a successful `commit` never allocates or retires a volume id — each id has a
volume after the operation exactly when it had one before (the image's volume is
destroyed and recreated under the same id). -/
theorem commit_preserves_volume_ids (st : St) (cid iid : Str)
    (h : (commit st [cid, iid]).2 = 0) :
    ∀ x, volExists (commit st [cid, iid]).1 x = volExists st x := by
  obtain ⟨c, h1, h2, h3, h4, heq⟩ := commit_success st cid iid [] h
  intro x
  rw [heq]; dsimp only
  by_cases hx : x = iid
  · subst hx
    rw [volExists, alookup_addVol_self, h3]
    rfl
  · rw [volExists, alookup_addVol_ne _ _ _ _ hx, alookup_deleteVol_ne st iid x hx]
    rfl

/-- Witness for C3 at a concrete state and id. -/
theorem commit_preserves_volume_ids_witness :
    volExists (commit exSt [sl "ps_42002", sl "img_42002"]).1 (sl "img_42002")
      = volExists exSt (sl "img_42002") :=
  commit_preserves_volume_ids exSt (sl "ps_42002") (sl "img_42002") (by decide)
    (sl "img_42002")

/-- C4: `commit` deletes the image volume before snapshotting the container into
it; in an execution where the delete succeeds (exact image volume present) and the
snapshot then fails (no exact container volume), the image id is left with no
backing volume and a nonzero exit code is returned. -/
theorem commit_delete_then_snapshot_gap (st : St) (cid iid : Str)
    (h1 : docker_check st cid = true) (h2 : docker_check st iid = true)
    (h3 : volExists st iid = true)
    (h4 : alookup (deleteVol st iid) cid = none) :
    commit st [cid, iid] = (deleteVol st iid, 1)
    ∧ volExists (commit st [cid, iid]).1 iid = false
    ∧ (commit st [cid, iid]).2 ≠ 0 := by
  have heq : commit st [cid, iid] = (deleteVol st iid, 1) := by
    simp [commit, h1, h2, h3, h4]
  refine ⟨heq, ?_, ?_⟩
  · rw [heq]; dsimp only
    rw [volExists, alookup_deleteVol_self]
    rfl
  · rw [heq]; dsimp only
    exact Nat.one_ne_zero

/-- Witness for C4: the substring check accepts `img_4200` (a proper prefix of the
existing `img_42002`) as container id, the delete of the image succeeds, the
snapshot fails, and the image id is left dangling. -/
theorem commit_delete_then_snapshot_gap_witness :
    commit exSt [sl "img_4200", sl "img_42002"] = (deleteVol exSt (sl "img_42002"), 1)
    ∧ volExists (commit exSt [sl "img_4200", sl "img_42002"]).1 (sl "img_42002") = false
    ∧ (commit exSt [sl "img_4200", sl "img_42002"]).2 ≠ 0 :=
  commit_delete_then_snapshot_gap exSt (sl "img_4200") (sl "img_42002")
    (by decide) (by decide) (by decide) (by decide)

/-- C2 counterexample: `img_4200` is not the id of any existing volume, yet
`commit` with it as container id is not the no-op the claim demands — it deletes
the existing image volume `img_42002` before the snapshot fails. -/
theorem commit_nonexistent_mutates_counterexample :
    (sl "img_4200") ∉ exSt.map Prod.fst
    ∧ (commit exSt [sl "img_4200", sl "img_42002"]).1 ≠ exSt
    ∧ volExists exSt (sl "img_42002") = true
    ∧ volExists (commit exSt [sl "img_4200", sl "img_42002"]).1 (sl "img_42002") = false := by
  decide

/-- C2 amended: when the container id or the image id fails the substring
existence check against the volume listing, `commit` returns exit code 1 and
performs no storage mutation. -/
theorem commit_failed_check_no_mutation (st : St) (cid iid : Str) (rest : List Str)
    (h : docker_check st cid = false ∨ docker_check st iid = false) :
    commit st (cid :: iid :: rest) = (st, 1) := by
  rcases h with h | h
  · simp [commit, h]
  · by_cases h1 : docker_check st cid = false
    · simp [commit, h1]
    · simp [commit, h1, h]

/-- Witness for the amended C2 at a concrete state. -/
theorem commit_failed_check_no_mutation_witness :
    commit exSt [sl "zzz", sl "img_42002"] = (exSt, 1) :=
  commit_failed_check_no_mutation exSt (sl "zzz") (sl "img_42002") []
    (Or.inl (by decide))

/-- Any entry of the image listing names a volume of the state. -/
theorem mem_list_images_key (st : St) (e : Str × Str) (he : e ∈ list_images st) :
    ∃ vc, (e.1, vc) ∈ st := by
  unfold list_images at he
  obtain ⟨p, hp, hfe⟩ := List.mem_filterMap.mp he
  cases hpre : imgPre.isPrefixOf p.1 with
  | false => rw [hpre] at hfe; simp at hfe
  | true =>
    rw [hpre] at hfe
    simp only [if_true] at hfe
    cases hsrc : alookup p.2 imgSourceName with
    | none => rw [hsrc] at hfe; cases hfe
    | some src =>
      rw [hsrc] at hfe
      have h1 : e.1 = p.1 := by cases hfe; rfl
      refine ⟨p.2, ?_⟩
      rw [h1, Prod.mk.eta]
      exact hp

/-- Any entry of the container listing names a volume of the state. -/
theorem mem_list_containers_key (st : St) (e : Str × Str)
    (he : e ∈ list_containers st) : ∃ vc, (e.1, vc) ∈ st := by
  unfold list_containers at he
  obtain ⟨p, hp, hfe⟩ := List.mem_filterMap.mp he
  cases hpre : psPre.isPrefixOf p.1 with
  | false => rw [hpre] at hfe; simp at hfe
  | true =>
    rw [hpre] at hfe
    simp only [if_true] at hfe
    cases hsrc : alookup p.2 (p.1 ++ sl ".cmd") with
    | none => rw [hsrc] at hfe; cases hfe
    | some cmd =>
      rw [hsrc] at hfe
      have h1 : e.1 = p.1 := by cases hfe; rfl
      refine ⟨p.2, ?_⟩
      rw [h1, Prod.mk.eta]
      exact hp

/-- C9: `rm` on an id with no exactly matching volume returns exit code 1 and
leaves the state untouched (whether it fails the substring check or, having
passed it, fails the delete); `rm` on the id of an existing volume removes that
volume, and both listings omit the id afterwards. -/
theorem rm_spec (st : St) (a : Str) :
    (alookup st a = none → rm st [a] = (st, 1))
    ∧ (∀ c, alookup st a = some c →
        (rm st [a]).2 = 0
        ∧ volExists (rm st [a]).1 a = false
        ∧ (∀ e ∈ list_images (rm st [a]).1, e.1 ≠ a)
        ∧ (∀ e ∈ list_containers (rm st [a]).1, e.1 ≠ a)) := by
  constructor
  · intro hnone
    cases hc : docker_check st a with
    | false => simp [rm, hc]
    | true =>
      have hv : volExists st a = false := by rw [volExists, hnone]; rfl
      simp [rm, hc, hv]
  · intro c hsome
    have hc : docker_check st a = true := docker_check_of_alookup st a c hsome
    have hv : volExists st a = true := by rw [volExists, hsome]; rfl
    have heq : rm st [a] = (deleteVol st a, 0) := by simp [rm, hc, hv]
    rw [heq]; dsimp only
    refine ⟨rfl, ?_, ?_, ?_⟩
    · rw [volExists, alookup_deleteVol_self]; rfl
    · intro e he
      obtain ⟨vc, hvc⟩ := mem_list_images_key _ e he
      exact of_decide_eq_true (List.mem_filter.mp hvc).2
    · intro e he
      obtain ⟨vc, hvc⟩ := mem_list_containers_key _ e he
      exact of_decide_eq_true (List.mem_filter.mp hvc).2

/-- Witness for C9 at a concrete state, covering both branches. -/
theorem rm_spec_witness :
    rm exSt [sl "nope"] = (exSt, 1)
    ∧ (rm exSt [sl "ps_42002"]).2 = 0
    ∧ volExists (rm exSt [sl "ps_42002"]).1 (sl "ps_42002") = false :=
  ⟨(rm_spec exSt (sl "nope")).1 (by decide),
   ((rm_spec exSt (sl "ps_42002")).2 exContent (by decide)).1,
   ((rm_spec exSt (sl "ps_42002")).2 exContent (by decide)).2.1⟩

/-- A state whose only volume (created outside the tool) strictly contains an
allocator candidate id as a substring. -/
def exStAlloc : St := [(sl "ximg_42002y", exContent)]

/-- C10: the existence check (`_docker_check`, the `NotFound` guard shared by
`run`, `rm` and `commit`) is a substring test against the volume listing, not an
exact-name test. `img_4200`, a proper prefix of the existing volume id
`img_42002` and itself the id of no volume, passes the check; `commit` with it as
container id therefore proceeds and deletes the image volume. The allocator
likewise treats a substring match as a collision: with only a volume
`ximg_42002y` present, the candidate `img_42002` (no volume of that name exists)
is rejected and the allocator redraws to `img_42003`. -/
theorem docker_check_substring_semantics :
    ((sl "img_4200") ∉ exSt.map Prod.fst
      ∧ docker_check exSt (sl "img_4200") = true)
    ∧ ((commit exSt [sl "img_4200", sl "img_42002"]).1 ≠ exSt
      ∧ volExists (commit exSt [sl "img_4200", sl "img_42002"]).1 (sl "img_42002") = false)
    ∧ ((sl "img_42002") ∉ exStAlloc.map Prod.fst
      ∧ generate_uuid imgPre 0 = sl "img_42002"
      ∧ docker_check exStAlloc (sl "img_42002") = true
      ∧ issueId exStAlloc imgPre [0, 1] = some (sl "img_42003")) := by
  decide

/-- A successfully issued id is an allocator candidate that failed the collision
check at issuance time. -/
theorem issueId_spec (st : St) (pre : Str) : ∀ (rands : List Nat) (a : Str),
    issueId st pre rands = some a →
    ∃ r, a = generate_uuid pre r ∧ docker_check st a = false
  | [], a, h => by cases h
  | r :: rs, a, h => by
    by_cases hc : docker_check st (generate_uuid pre r) = true
    · rw [issueId, if_pos hc] at h
      exact issueId_spec st pre rs a h
    · rw [issueId, if_neg hc] at h
      cases h
      exact ⟨r, rfl, Bool.not_eq_true _ ▸ Bool.of_not_eq_true hc⟩

/-- Any volume created by `init` (absent before, present after) carries the image
namespace, because its id came from the allocator called with the image prefix. -/
theorem init_created_prefix (dirs : List (Str × VolContent)) (st : St)
    (rands : List Nat) (dargs : List Str) (x : Str)
    (h0 : volExists st x = false)
    (h1 : volExists (init dirs st rands dargs).1 x = true) :
    imgPre <+: x := by
  cases dargs with
  | nil => simp [init] at h1; rw [h1] at h0; cases h0
  | cons d drest =>
    cases hd : alookup dirs d with
    | none => simp [init, hd] at h1; rw [h1] at h0; cases h0
    | some dc =>
      cases hi : issueId st imgPre rands with
      | none => simp [init, hd, hi] at h1; rw [h1] at h0; cases h0
      | some uuid =>
        by_cases hx : x = uuid
        · subst hx
          obtain ⟨r, hr, _⟩ := issueId_spec st imgPre rands x hi
          rw [hr, generate_uuid]
          exact ⟨natToStr (42002 + r % 253), rfl⟩
        · by_cases hempty : (visibleEntries dc).isEmpty
          all_goals
            simp [init, hd, hi, hempty] at h1
            rw [volExists, alookup_addVol_ne _ _ _ _ hx] at h1
            rw [volExists] at h0
            rw [h1] at h0
            cases h0

/-- Any volume created by `run` carries the container namespace, because its id
came from the allocator called with the container prefix. -/
theorem run_created_prefix (exec : VolContent → Str → ExecResult) (resolv : Str)
    (st : St) (rands : List Nat) (rargs : List Str) (x : Str)
    (h0 : volExists st x = false)
    (h1 : volExists (run exec resolv st rands rargs).1 x = true) :
    psPre <+: x := by
  match rargs with
  | [] => simp [run] at h1; rw [h1] at h0; cases h0
  | [i] => simp [run] at h1; rw [h1] at h0; cases h0
  | i :: c0 :: crest =>
    cases hc : docker_check st i with
    | false => simp [run, hc] at h1; rw [h1] at h0; cases h0
    | true =>
      by_cases hstrip : pyStrip (joinArgs (c0 :: crest)) = []
      · simp [run, hc, hstrip] at h1; rw [h1] at h0; cases h0
      · cases hi : issueId st psPre rands with
        | none => simp [run, hc, hstrip, hi] at h1; rw [h1] at h0; cases h0
        | some uuid =>
          cases hic : alookup st i with
          | none => simp [run, hc, hstrip, hi, hic] at h1; rw [h1] at h0; cases h0
          | some icontent =>
            by_cases hx : x = uuid
            · subst hx
              obtain ⟨r, hr, _⟩ := issueId_spec st psPre rands x hi
              rw [hr, generate_uuid]
              exact ⟨natToStr (42002 + r % 253), rfl⟩
            · simp [run, hc, hstrip, hi, hic] at h1
              rw [volExists, alookup_addVol_ne _ _ _ _ hx] at h1
              rw [volExists] at h0
              rw [h1] at h0
              cases h0

/-- C8: every id the allocator issues carries the requested namespace prefix, is
drawn from the bounded space 42002..42254, and does not collide with any existing
volume at issuance (a redraw happens on each collision); the volumes `init` and
`run` create carry the image and container prefixes respectively. -/
theorem issueId_properties (st : St) (pre : Str) (rands : List Nat) (a : Str)
    (h : issueId st pre rands = some a) :
    (pre <+: a)
    ∧ (∃ n, 42002 ≤ n ∧ n ≤ 42254 ∧ a = pre ++ natToStr n)
    ∧ docker_check st a = false
    ∧ volExists st a = false
    ∧ (∀ c, (a, c) ∈ st → False)
    ∧ (∀ r rs, docker_check st (generate_uuid pre r) = true →
        issueId st pre (r :: rs) = issueId st pre rs)
    ∧ (∀ dirs st2 r2 dargs x, volExists st2 x = false →
        volExists (init dirs st2 r2 dargs).1 x = true → imgPre <+: x)
    ∧ (∀ exec resolv st2 r2 rargs x, volExists st2 x = false →
        volExists (run exec resolv st2 r2 rargs).1 x = true → psPre <+: x) := by
  obtain ⟨r, hr, hchk⟩ := issueId_spec st pre rands a h
  refine ⟨?_, ?_, hchk, ?_, ?_, ?_, ?_, ?_⟩
  · rw [hr, generate_uuid]
    exact ⟨natToStr (42002 + r % 253), rfl⟩
  · refine ⟨42002 + r % 253, Nat.le_add_right _ _, ?_, hr⟩
    have : r % 253 < 253 := Nat.mod_lt r (by norm_num)
    omega
  · rw [volExists, alookup_none_of_check_false st a hchk]; rfl
  · intro c hmem
    rw [docker_check_of_mem st a c hmem] at hchk
    cases hchk
  · intro r' rs' hcol
    rw [issueId, if_pos hcol]
  · exact fun dirs st2 r2 dargs x => init_created_prefix dirs st2 r2 dargs x
  · exact fun exec resolv st2 r2 rargs x => run_created_prefix exec resolv st2 r2 rargs x

/-- Witness for C8 at a concrete allocation that redraws once. -/
theorem issueId_properties_witness :
    (imgPre <+: sl "img_42003")
    ∧ docker_check exStAlloc (sl "img_42003") = false :=
  ⟨(issueId_properties exStAlloc imgPre [0, 1] (sl "img_42003") (by decide)).1,
   (issueId_properties exStAlloc imgPre [0, 1] (sl "img_42003") (by decide)).2.2.1⟩

theorem alookup_setFile_self (c : VolContent) (p v : Str) :
    alookup (setFile c p v) p = some v := by
  simp [setFile, alookup]

/-- A benign concrete isolated-process model: touches nothing, exits 0. -/
def exExec : VolContent → Str → ExecResult := fun c _ => ⟨c, sl "out\n", 0⟩

/-- A concrete host DNS configuration. -/
def exResolv : Str := sl "nameserver 1.1.1.1\n"

/-- C7: `run` validates the image (its `NotFound` guard) and the non-emptiness of
the command (its `InvalidArgument` guard) before any storage step: whenever the
image has no volume or the command is whitespace-only (or the arguments are too
few), `run` exits 1 with the state untouched — no volume created, no file
written. -/
theorem run_validation_fail_fast (exec : VolContent → Str → ExecResult)
    (resolv : Str) (st : St) (rands : List Nat) (iid c0 : Str) (crest : List Str) :
    (alookup st iid = none →
      run exec resolv st rands (iid :: c0 :: crest) = (st, 1))
    ∧ (pyStrip (joinArgs (c0 :: crest)) = [] →
      run exec resolv st rands (iid :: c0 :: crest) = (st, 1))
    ∧ run exec resolv st rands [iid] = (st, 1)
    ∧ run exec resolv st rands [] = (st, 1) := by
  refine ⟨?_, ?_, by simp [run], by simp [run]⟩
  · intro hnone
    cases hc : docker_check st iid with
    | false => simp [run, hc]
    | true =>
      by_cases hstrip : pyStrip (joinArgs (c0 :: crest)) = []
      · simp [run, hc, hstrip]
      · cases hi : issueId st psPre rands with
        | none => simp [run, hc, hstrip, hi]
        | some uuid => simp [run, hc, hstrip, hi, hnone]
  · intro hstrip
    cases hc : docker_check st iid with
    | false => simp [run, hc]
    | true => simp [run, hc, hstrip]

/-- Witness for C7: a missing image and a whitespace-only command each leave the
state untouched with exit code 1. -/
theorem run_validation_fail_fast_witness :
    run exExec exResolv exSt [0] [sl "img_nope", sl "wget"] = (exSt, 1)
    ∧ run exExec exResolv exSt [0] [sl "img_42002", sl " "] = (exSt, 1) :=
  ⟨(run_validation_fail_fast exExec exResolv exSt [0] (sl "img_nope") (sl "wget") []).1
      (by decide),
   (run_validation_fail_fast exExec exResolv exSt [0] (sl "img_42002") (sl " ") []).2.1
      (by decide)⟩

/-- Isolated-process model that leaves the volume as is, prints `boom` and exits 0. -/
def execExitZero : VolContent → Str → ExecResult := fun c _ => ⟨c, sl "boom\n", 0⟩

/-- Same observable behaviour as `execExitZero` but the process exits 7. -/
def execExitSeven : VolContent → Str → ExecResult := fun c _ => ⟨c, sl "boom\n", 7⟩

/-- C6 counterexample: the inner command's exit code is NOT recorded anywhere.
Running the same container with a process that exits 7 instead of 0 yields a
bit-identical storage state and the same orchestration exit code 0 — the
trailing `|| true` of the pipeline discards the status, so it is not inspectable
data. -/
theorem run_exit_code_not_recorded_counterexample :
    run execExitSeven exResolv exSt [0, 1] [sl "img_42002", sl "wget"]
      = run execExitZero exResolv exSt [0, 1] [sl "img_42002", sl "wget"]
    ∧ (run execExitSeven exResolv exSt [0, 1] [sl "img_42002", sl "wget"]).2 = 0 := by
  decide

/-- C6 amended: for an existing image and a non-empty command (and an id draw
that terminates), `run` exits 0 no matter what the isolated command does or what
status it exits with; the command's output is recorded in the container's log
file (its numeric exit status is discarded), and the container's volume persists
afterwards. -/
theorem run_inner_failure_not_promoted (exec : VolContent → Str → ExecResult)
    (resolv : Str) (st : St) (rands : List Nat) (iid c0 : Str) (crest : List Str)
    (ic : VolContent) (uuid : Str)
    (hic : alookup st iid = some ic)
    (hstrip : pyStrip (joinArgs (c0 :: crest)) ≠ [])
    (hi : issueId st psPre rands = some uuid) :
    (run exec resolv st rands (iid :: c0 :: crest)).2 = 0
    ∧ volExists (run exec resolv st rands (iid :: c0 :: crest)).1 uuid = true
    ∧ (∃ vc, alookup (run exec resolv st rands (iid :: c0 :: crest)).1 uuid = some vc
        ∧ alookup vc (uuid ++ sl ".log")
            = some (exec (setFile (setFile ic (uuid ++ sl ".cmd")
                (joinArgs (c0 :: crest) ++ pyNL)) (sl "etc/resolv.conf") resolv)
              (joinArgs (c0 :: crest))).output) := by
  have hc : docker_check st iid = true := docker_check_of_alookup st iid ic hic
  have heq : run exec resolv st rands (iid :: c0 :: crest)
      = (addVol st uuid
          (setFile (exec (setFile (setFile ic (uuid ++ sl ".cmd")
              (joinArgs (c0 :: crest) ++ pyNL)) (sl "etc/resolv.conf") resolv)
            (joinArgs (c0 :: crest))).content (uuid ++ sl ".log")
            (exec (setFile (setFile ic (uuid ++ sl ".cmd")
              (joinArgs (c0 :: crest) ++ pyNL)) (sl "etc/resolv.conf") resolv)
            (joinArgs (c0 :: crest))).output), 0) := by
    simp [run, hc, hstrip, hi, hic]
  rw [heq]; dsimp only
  refine ⟨rfl, ?_, ?_⟩
  · rw [volExists, alookup_addVol_self]; rfl
  · exact ⟨_, alookup_addVol_self _ _ _, alookup_setFile_self _ _ _⟩

/-- Witness for the amended C6 at a concrete state (the first id draw collides
with the existing container, the second is free). -/
theorem run_inner_failure_not_promoted_witness :
    (run execExitSeven exResolv exSt [0, 1] [sl "img_42002", sl "wget"]).2 = 0
    ∧ volExists (run execExitSeven exResolv exSt [0, 1]
        [sl "img_42002", sl "wget"]).1 (sl "ps_42003") = true :=
  have h := run_inner_failure_not_promoted execExitSeven exResolv exSt [0, 1]
    (sl "img_42002") (sl "wget") [] exImgContent (sl "ps_42003")
    (by decide) (by decide) (by decide)
  ⟨h.1, h.2.1⟩

/-- A host directory that already carries a file named `img.source`. -/
def exDirMarked : List (Str × VolContent) := [(sl "d", [(imgSourceName, sl "other\n")])]

/-- A host directory with no entries. -/
def exDirEmpty : List (Str × VolContent) := [(sl "e", [])]

/-- A host directory whose only entry is a dotfile, invisible to the glob. -/
def exDirHidden : List (Str × VolContent) := [(sl "h", [(sl ".x", sl "1")])]

/-- A host directory with an ordinary file and no marker. -/
def exDirPlain : List (Str × VolContent) := [(sl "d", [(sl "f", sl "1")])]

/-- C5 counterexample: (a) for the existing directory `d` that contains its own
`img.source` file, `init` succeeds but the image's provenance marker is the copied
`other`, not `d`; (b) for the existing empty directory `e`, `init` fails with exit
code 1 (the unmatched shell glob aborts the `cp`); (c) likewise for the existing
directory `h` whose only entry is the dotfile `.x`, which the glob does not
match — so `createImage` neither succeeds on every existing directory nor always
records the directory name as marker. -/
theorem init_marker_counterexample :
    ((init exDirMarked [] [0] [sl "d"]).2.2 = 0
      ∧ (init exDirMarked [] [0] [sl "d"]).2.1 = some (sl "img_42002")
      ∧ alookup (init exDirMarked [] [0] [sl "d"]).1 (sl "img_42002")
          = some [(imgSourceName, sl "other\n")]
      ∧ pyStrip (sl "other\n") ≠ sl "d")
    ∧ ((init exDirEmpty [] [0] [sl "e"]).2.2 = 1
      ∧ (init exDirEmpty [] [0] [sl "e"]).2.1 = none)
    ∧ ((init exDirHidden [] [0] [sl "h"]).2.2 = 1
      ∧ (init exDirHidden [] [0] [sl "h"]).2.1 = none) := by
  decide

/-- C5 amended: for an existing directory with at least one glob-visible entry
(one not beginning with a dot) and an id draw that terminates, `init` succeeds
and returns a newly issued image id; the image's volume holds the directory's
glob-visible contents (top-level dot-entries are never copied), with provenance
marker equal to the directory name when those contents did not already provide
an `img.source` file, and the copied marker kept unchanged when they did. For an
existing directory with no glob-visible entry the `cp` fails and `init` returns
exit code 1, leaving the freshly created empty volume behind. For a nonexistent
directory, `init` fails with exit code 1 and creates no volume. -/
theorem init_spec_amended (dirs : List (Str × VolContent)) (st : St)
    (rands : List Nat) (d : Str) :
    (∀ dc uuid, alookup dirs d = some dc → visibleEntries dc ≠ [] →
        issueId st imgPre rands = some uuid →
        (init dirs st rands [d]).2.2 = 0
        ∧ (init dirs st rands [d]).2.1 = some uuid
        ∧ volExists st uuid = false
        ∧ (alookup (visibleEntries dc) imgSourceName = none →
            alookup (init dirs st rands [d]).1 uuid
              = some (setFile (visibleEntries dc) imgSourceName (d ++ pyNL))
            ∧ (∃ vc, alookup (init dirs st rands [d]).1 uuid = some vc
              ∧ alookup vc imgSourceName = some (d ++ pyNL)))
        ∧ (∀ m, alookup (visibleEntries dc) imgSourceName = some m →
            alookup (init dirs st rands [d]).1 uuid = some (visibleEntries dc)))
    ∧ (alookup dirs d = none → init dirs st rands [d] = (st, none, 1))
    ∧ (∀ dc uuid, alookup dirs d = some dc → visibleEntries dc = [] →
        issueId st imgPre rands = some uuid →
        init dirs st rands [d] = (addVol st uuid [], none, 1)) := by
  refine ⟨?_, ?_, ?_⟩
  · intro dc uuid hdc hne hi
    have hempty : (visibleEntries dc).isEmpty = false := by
      cases hv : visibleEntries dc with
      | nil => exact absurd hv hne
      | cons f fs => rfl
    obtain ⟨r, hr, hchk⟩ := issueId_spec st imgPre rands uuid hi
    have hfresh : volExists st uuid = false := by
      rw [volExists, alookup_none_of_check_false st uuid hchk]; rfl
    cases hm : alookup (visibleEntries dc) imgSourceName with
    | none =>
      have heq : init dirs st rands [d]
          = (addVol st uuid (setFile (visibleEntries dc) imgSourceName (d ++ pyNL)),
              some uuid, 0) := by
        simp [init, hdc, hi, hempty, hm]
      rw [heq]; dsimp only
      refine ⟨rfl, rfl, hfresh, ?_, ?_⟩
      · intro _
        exact ⟨alookup_addVol_self _ _ _,
          ⟨_, alookup_addVol_self _ _ _, alookup_setFile_self _ _ _⟩⟩
      · intro m hsome
        exact Option.noConfusion hsome
    | some m0 =>
      have heq : init dirs st rands [d]
          = (addVol st uuid (visibleEntries dc), some uuid, 0) := by
        simp [init, hdc, hi, hempty, hm]
      rw [heq]; dsimp only
      refine ⟨rfl, rfl, hfresh, ?_, ?_⟩
      · intro hnone
        exact Option.noConfusion hnone
      · intro m _
        exact alookup_addVol_self _ _ _
  · intro hnone
    simp [init, hnone]
  · intro dc uuid hdc hvis hi
    have hempty : (visibleEntries dc).isEmpty = true := by rw [hvis]; rfl
    simp [init, hdc, hi, hempty]

/-- Witness for the amended C5: a marker-free directory yields a fresh image
whose marker is the directory name, a nonexistent directory changes nothing, and
an all-dotfile directory fails after creating the empty volume. -/
theorem init_spec_amended_witness :
    (init exDirPlain [] [0] [sl "d"]).2.2 = 0
    ∧ (init exDirPlain [] [0] [sl "d"]).2.1 = some (sl "img_42002")
    ∧ (∃ vc, alookup (init exDirPlain [] [0] [sl "d"]).1 (sl "img_42002") = some vc
        ∧ alookup vc imgSourceName = some (sl "d" ++ pyNL))
    ∧ init exDirPlain [] [0] [sl "missing"] = ([], none, 1)
    ∧ init exDirHidden [] [0] [sl "h"] = (addVol [] (sl "img_42002") [], none, 1) :=
  have h := (init_spec_amended exDirPlain [] [0] (sl "d")).1 [(sl "f", sl "1")]
    (sl "img_42002") (by decide) (by decide) (by decide)
  ⟨h.1, h.2.1, (h.2.2.2.1 (by decide)).2,
   (init_spec_amended exDirPlain [] [0] (sl "missing")).2.1 (by decide),
   (init_spec_amended exDirHidden [] [0] (sl "h")).2.2 [(sl ".x", sl "1")]
     (sl "img_42002") (by decide) (by decide) (by decide)⟩
